import Mathlib

/-!
Verification of the note/reminder pipeline of `src/cod.py` (Orion assistant).

The Python source is shallowly embedded: strings become `List Char`, the
sqlite table `notas` becomes an explicit `Store` value, the telegram job
queue becomes an explicit list of `Job`s, and the coroutine
`process_gemini_response` becomes a pure function from the incoming text and
the current state to a `Result` that records the new store, the new job
list, the replies sent, the log lines written, the order of side effects and
any escaped exception.
-/

set_option maxRecDepth 4000

/-- Python strings are modelled as lists of characters. -/
abbrev Str := List Char

/-! ## Basic Python string primitives -/

/-- Python whitespace characters recognised by `str.strip()` (ASCII part). -/
def pySpace (c : Char) : Bool :=
  c = ' ' || c = '\t' || c = '\n' || c = '\r' || c = '\x0b' || c = '\x0c'

/-- Model of Python `str.strip()` (no argument): drop whitespace on both ends. -/
def pyStrip (l : Str) : Str :=
  ((l.dropWhile pySpace).reverse.dropWhile pySpace).reverse

/-- Model of Python `str.strip('"')`: drop double quotes on both ends. -/
def stripQuotes (l : Str) : Str :=
  ((l.dropWhile (fun c => c = '"')).reverse.dropWhile (fun c => c = '"')).reverse

/-- Model of Python `a.startswith(p)` restricted to list form. -/
def isPrefOf : Str → Str → Bool
  | [], _ => true
  | _ :: _, [] => false
  | a :: as, b :: bs => a = b && isPrefOf as bs

/-- Substring test: does `p` occur contiguously inside `l`?  Used to state
what information a rendered message carries. -/
def occursIn (p : Str) : Str → Bool
  | [] => p.isEmpty
  | c :: r => isPrefOf p (c :: r) || occursIn p r

/-- Model of Python `text.split('\n')`: always returns at least one part. -/
def splitNL : Str → List Str
  | [] => [[]]
  | c :: r =>
    if c = '\n' then [] :: splitNL r
    else
      match splitNL r with
      | h :: t => (c :: h) :: t
      | [] => [[c]]

/-- First position at which `findSep` sees `sep` as a prefix; returns the part
before the separator and the part after it. -/
def findSep (sep : Str) : Str → Option (Str × Str)
  | [] => if isPrefOf sep [] then some ([], []) else none
  | c :: cs =>
    if isPrefOf sep (c :: cs) then some ([], (c :: cs).drop sep.length)
    else (findSep sep cs).map (fun p => (c :: p.1, p.2))

/-- Fuelled worker for `pySplit`. -/
def pySplitF (sep : Str) : Nat → Str → List Str
  | 0, l => [l]
  | fuel + 1, l =>
    match findSep sep l with
    | none => [l]
    | some (b, a) => b :: pySplitF sep fuel a

/-- Model of Python `s.split(sep)` for a non-empty separator. -/
def pySplit (sep l : Str) : List Str := pySplitF sep (l.length + 1) l

/-! ## Decimal rendering of integers (Python `str(...)`) -/

/-- Decimal digits of `n`, least significant first, driven by fuel. -/
def natDigitsRev : Nat → Nat → List Nat
  | 0, _ => []
  | fuel + 1, n => if n < 10 then [n] else n % 10 :: natDigitsRev fuel (n / 10)

/-- One decimal digit as a character. -/
def dChar : Nat → Char
  | 0 => '0' | 1 => '1' | 2 => '2' | 3 => '3' | 4 => '4'
  | 5 => '5' | 6 => '6' | 7 => '7' | 8 => '8' | 9 => '9'
  | _ => '*'

/-- Numeric value of a digit character. -/
def charVal (c : Char) : Nat := c.toNat - 48

/-- Model of Python `str(n)` for a natural number. -/
def natToStr (n : Nat) : Str := ((natDigitsRev (n + 1) n).map dChar).reverse

/-- Model of Python `str(i)` for an integer. -/
def intToStr (i : Int) : Str :=
  if i < 0 then '-' :: natToStr i.natAbs else natToStr i.natAbs

/-- Value of a digit character sequence, least significant digit first. -/
def valRev : List Nat → Nat
  | [] => 0
  | d :: r => d + 10 * valRev r

/-! ## Timestamps

`datetime` values are modelled by their six calendar fields.  All stored
timestamps share the single fixed `America/Sao_Paulo` zone that the code
attaches with `SAO_PAULO_TZ.localize`, so comparisons between stored values
(the sqlite `due_at > ?` / `due_at <= ?` string comparisons on the ISO
renderings) are modelled by the lexicographic order on the fields. -/

structure DT where
  y : Nat
  mo : Nat
  d : Nat
  h : Nat
  mi : Nat
  s : Nat
deriving DecidableEq, Repr

/-- Lexicographic strict order on timestamps (the order of the ISO strings
sqlite compares). -/
def dtLt (a b : DT) : Bool :=
  decide (a.y < b.y) || (decide (a.y = b.y) &&
    (decide (a.mo < b.mo) || (decide (a.mo = b.mo) &&
      (decide (a.d < b.d) || (decide (a.d = b.d) &&
        (decide (a.h < b.h) || (decide (a.h = b.h) &&
          (decide (a.mi < b.mi) || (decide (a.mi = b.mi) &&
            decide (a.s < b.s))))))))))

/-- Non-strict companion of `dtLt`. -/
def dtLe (a b : DT) : Bool := dtLt a b || decide (a = b)

/-! ## The note store (sqlite table `notas`) -/

structure Note where
  id : Nat
  user_id : Int
  content : Str
  due_at : Option DT
deriving DecidableEq, Repr

/-- The `notas` table plus the AUTOINCREMENT counter. -/
structure Store where
  nextId : Nat
  notas : List Note
deriving DecidableEq, Repr

/-- Model of `adicionar_nota` (src/cod.py lines 63-70): INSERT INTO notas. -/
def adicionar_nota (user_id : Int) (content : Str) (due_at : Option DT)
    (st : Store) : Store :=
  { nextId := st.nextId + 1,
    notas := st.notas ++ [{ id := st.nextId, user_id := user_id,
                            content := content, due_at := due_at }] }

/-- Row predicate of `consultar_notas_pendentes`:
`user_id = ? AND due_at IS NOT NULL AND due_at > ?`. -/
def pendPred (user_id : Int) (now : DT) (n : Note) : Bool :=
  decide (n.user_id = user_id) &&
    (match n.due_at with
     | some d => dtLt now d
     | none => false)

/-- Row predicate of `consultar_notas_concluidas`:
`user_id = ? AND due_at IS NOT NULL AND due_at <= ?`. -/
def concPred (user_id : Int) (now : DT) (n : Note) : Bool :=
  decide (n.user_id = user_id) &&
    (match n.due_at with
     | some d => dtLe d now
     | none => false)

/-- Row predicate of `consultar_notas_simples`:
`user_id = ? AND due_at IS NULL`. -/
def simpPred (user_id : Int) (n : Note) : Bool :=
  decide (n.user_id = user_id) && n.due_at.isNone

/-- Sort key used by `ORDER BY due_at`: rows reaching it have a non-null
`due_at`, the default is irrelevant. -/
def dueKey (n : Note) : DT := n.due_at.getD ⟨0, 0, 0, 0, 0, 0⟩

/-- Ascending `ORDER BY due_at` relation. -/
def noteDueLe (a b : Note) : Prop := dtLe (dueKey a) (dueKey b) = true

/-- Descending `ORDER BY due_at DESC` relation. -/
def noteDueGe (a b : Note) : Prop := dtLe (dueKey b) (dueKey a) = true

/-- Descending `ORDER BY id DESC` relation. -/
def noteIdGe (a b : Note) : Prop := b.id ≤ a.id

instance : DecidableRel noteDueLe := fun _ _ => decEq _ _
instance : DecidableRel noteDueGe := fun _ _ => decEq _ _
instance : DecidableRel noteIdGe := fun _ _ => Nat.decLe _ _

/-- Model of `consultar_notas_pendentes` (src/cod.py lines 72-79). -/
def consultar_notas_pendentes (st : Store) (user_id : Int) (now : DT) :
    List Note :=
  List.insertionSort noteDueLe (st.notas.filter (pendPred user_id now))

/-- Model of `consultar_notas_concluidas` (src/cod.py lines 81-88). -/
def consultar_notas_concluidas (st : Store) (user_id : Int) (now : DT) :
    List Note :=
  List.insertionSort noteDueGe (st.notas.filter (concPred user_id now))

/-- Model of `consultar_notas_simples` (src/cod.py lines 90-97). -/
def consultar_notas_simples (st : Store) (user_id : Int) : List Note :=
  List.insertionSort noteIdGe (st.notas.filter (simpPred user_id))

/-- Model of `deletar_nota` (src/cod.py lines 99-105): DELETE FROM notas WHERE id = ?. -/
def deletar_nota (note_id : Int) (st : Store) : Store :=
  { st with notas := st.notas.filter (fun n => decide (¬((n.id : Int) = note_id))) }

/-! ## `datetime.strptime(s, '%Y-%m-%d %H:%M:%S')`

The CPython `_strptime` machinery compiles the format into the regular
expression `(\d\d\d\d)-(1[0-2]|0[1-9]|[1-9])-(3[01]|[12]\d|0[1-9]|[1-9])
(2[0-3]|[01]\d|\d):([0-5]\d|\d):([0-5]\d|\d)` anchored at the start.  The
model enumerates the alternatives of each group in the order the regex tries
them, takes the first complete match (leftmost-greedy), then applies the
validations `datetime.__new__` performs (year range, day-of-month). -/

inductive PyErr where
  | indexError
  | valueError (msg : Str)
  | sqliteError
deriving DecidableEq, Repr

/-- Rendering of `str(e)` for the exceptions the model raises.  CPython
renders IndexError from `parts[1]` as shown; `sqliteError` stands for a
storage-layer failure whose text is backend dependent. -/
def errStr : PyErr → Str
  | .indexError => "list index out of range".toList
  | .valueError m => m
  | .sqliteError => "database error".toList

def digitVal (c : Char) : Nat := c.toNat - 48

/-- Group `%Y`: exactly four digits. -/
def year4 : Str → Option (Nat × Str)
  | a :: b :: c :: d :: r =>
    if a.isDigit && b.isDigit && c.isDigit && d.isDigit then
      some (((digitVal a * 10 + digitVal b) * 10 + digitVal c) * 10 + digitVal d, r)
    else none
  | _ => none

/-- A literal character of the format. -/
def lit (c : Char) : Str → Option Str
  | x :: r => if x = c then some r else none
  | [] => none

/-- Group `%m`: alternatives `1[0-2]`, `0[1-9]`, `[1-9]` in regex order. -/
def monthCands (l : Str) : List (Nat × Str) :=
  (match l with
   | a :: b :: r =>
     if (a = '1' && ('0' ≤ b && b ≤ '2')) || (a = '0' && ('1' ≤ b && b ≤ '9')) then
       [(digitVal a * 10 + digitVal b, r)]
     else []
   | _ => []) ++
  (match l with
   | a :: r => if '1' ≤ a && a ≤ '9' then [(digitVal a, r)] else []
   | [] => [])

/-- Group `%d`: alternatives `3[01]`, `[12]\d`, `0[1-9]`, `[1-9]` in regex order. -/
def dayCands (l : Str) : List (Nat × Str) :=
  (match l with
   | a :: b :: r =>
     if (a = '3' && ('0' ≤ b && b ≤ '1')) ||
        (('1' ≤ a && a ≤ '2') && b.isDigit) ||
        (a = '0' && ('1' ≤ b && b ≤ '9')) then
       [(digitVal a * 10 + digitVal b, r)]
     else []
   | _ => []) ++
  (match l with
   | a :: r => if '1' ≤ a && a ≤ '9' then [(digitVal a, r)] else []
   | [] => [])

/-- Group `%H`: alternatives `2[0-3]`, `[01]\d`, `\d` in regex order. -/
def hourCands (l : Str) : List (Nat × Str) :=
  (match l with
   | a :: b :: r =>
     if (a = '2' && ('0' ≤ b && b ≤ '3')) || (('0' ≤ a && a ≤ '1') && b.isDigit) then
       [(digitVal a * 10 + digitVal b, r)]
     else []
   | _ => []) ++
  (match l with
   | a :: r => if a.isDigit then [(digitVal a, r)] else []
   | [] => [])

/-- Groups `%M` and `%S`: alternatives `[0-5]\d`, `\d` in regex order. -/
def minSecCands (l : Str) : List (Nat × Str) :=
  (match l with
   | a :: b :: r =>
     if ('0' ≤ a && a ≤ '5') && b.isDigit then [(digitVal a * 10 + digitVal b, r)]
     else []
   | _ => []) ++
  (match l with
   | a :: r => if a.isDigit then [(digitVal a, r)] else []
   | [] => [])

/-- All prefix matches of the compiled format, in the order the regex engine
tries them; the head is the match `re.match` returns. -/
def strptimeMatches (l : Str) : List (DT × Str) :=
  match year4 l with
  | none => []
  | some (y, r1) =>
    match lit '-' r1 with
    | none => []
    | some r2 =>
      (monthCands r2).flatMap (fun mo =>
        match lit '-' mo.2 with
        | none => []
        | some r4 =>
          (dayCands r4).flatMap (fun d =>
            match lit ' ' d.2 with
            | none => []
            | some r6 =>
              (hourCands r6).flatMap (fun h =>
                match lit ':' h.2 with
                | none => []
                | some r8 =>
                  (minSecCands r8).flatMap (fun mi =>
                    match lit ':' mi.2 with
                    | none => []
                    | some r10 =>
                      (minSecCands r10).map
                        (fun s => (⟨y, mo.1, d.1, h.1, mi.1, s.1⟩, s.2))))))

/-- Gregorian leap year rule used by `datetime`. -/
def isLeap (y : Nat) : Bool := (y % 4 = 0 && ¬(y % 100 = 0)) || y % 400 = 0

/-- Days in a month, as validated by the `datetime` constructor. -/
def daysInMonth (y m : Nat) : Nat :=
  if m = 2 then (if isLeap y then 29 else 28)
  else if m = 4 || m = 6 || m = 9 || m = 11 then 30
  else 31

/-- Message of the ValueError raised when the regex does not match. -/
def noMatchMsg (l : Str) : Str :=
  "time data '".toList ++ l ++ "' does not match format '%Y-%m-%d %H:%M:%S'".toList

/-- Message of the ValueError raised when trailing input remains. -/
def uncMsg (rest : Str) : Str := "unconverted data remains: ".toList ++ rest

/-- Model of `datetime.strptime(l, '%Y-%m-%d %H:%M:%S')`. -/
def strptime (l : Str) : Except PyErr DT :=
  match strptimeMatches l with
  | [] => .error (.valueError (noMatchMsg l))
  | (dt, rest) :: _ =>
    if ¬rest.isEmpty then .error (.valueError (uncMsg rest))
    else if dt.y = 0 then .error (.valueError ("year 0 is out of range".toList))
    else if daysInMonth dt.y dt.mo < dt.d then
      .error (.valueError ("day is out of range for month".toList))
    else .ok dt

/-! ## Python `int(...)` -/

/-- Digits with optional single underscores between digits, after the first
digit has been consumed. -/
def digitsURest (acc : Nat) : Str → Option Nat
  | [] => some acc
  | '_' :: c :: r =>
    if c.isDigit then digitsURest (acc * 10 + digitVal c) r else none
  | c :: r => if c.isDigit then digitsURest (acc * 10 + digitVal c) r else none

/-- Non-empty digit run with single interior underscores. -/
def digitsU : Str → Option Nat
  | c :: r => if c.isDigit then digitsURest (digitVal c) r else none
  | [] => none

/-- Model of Python `int(s)` for decimal literals (ASCII digits, optional
sign, surrounding whitespace, interior underscores). -/
def pyInt (l : Str) : Option Int :=
  match pyStrip l with
  | '+' :: r => (digitsU r).map Int.ofNat
  | '-' :: r => (digitsU r).map (fun n => -(n : Int))
  | r => (digitsU r).map Int.ofNat

/-! ## The directive parser (`process_gemini_response`, src/cod.py 121-142) -/

/-- First line of the reply, stripped: the natural reply, always sent. -/
def naturalReply (text : Str) : Str := pyStrip ((splitNL text).headD [])

/-- Candidate directive: the stripped last line, and only when the reply has
more than one line (src/cod.py 127-129). -/
def candidateDirective (text : Str) : Option Str :=
  let parts := splitNL text
  if parts.length > 1 then some (pyStrip (parts.getLastD [])) else none

def startsWithBracket (cl : Str) : Bool :=
  match cl.head? with
  | some c => c = '['
  | none => false

def endsWithBracket (cl : Str) : Bool :=
  match cl.getLast? with
  | some c => c = ']'
  | none => false

/-- The guard of src/cod.py line 131:
`not command_line or not command_line.startswith('[') or not command_line.endswith(']')`. -/
def rejectsCandidate : Option Str → Bool
  | none => true
  | some cl => cl.isEmpty || !startsWithBracket cl || !endsWithBracket cl

/-- Word characters of the regex class `\w` (ASCII range). -/
def isWordChar (c : Char) : Bool := c.isAlphanum || c = '_'

/-- Group 2 of `(.*)\]`: the segment before the last `]` of `l`, if any
(`.*` is greedy, so the regex engine backtracks to the last bracket). -/
def afterRev : Str → Option Str
  | [] => none
  | c :: r => if c = ']' then some r else afterRev r

/-- Model of `re.match(r"\[(\w+): (.*)\]", l)`: on success, group 1 (the
intent word) and group 2 (the raw payload). -/
def matchDirective (l : Str) : Option (Str × Str) :=
  match l with
  | '[' :: rest =>
    let w := rest.takeWhile isWordChar
    let r1 := rest.dropWhile isWordChar
    if w.isEmpty then none
    else
      match r1 with
      | ':' :: ' ' :: r2 => (afterRev r2.reverse).map (fun g => (w, g.reverse))
      | _ => none
  | _ => none

/-! ## The action executor (`process_gemini_response`, src/cod.py 144-219) -/

/-- One job of `context.job_queue` as created by `run_once`
(src/cod.py 160-166). -/
structure Job where
  chat_id : Int
  fire_at : DT
  data : Str
  name : Str
deriving DecidableEq, Repr

/-- Side effects in execution order (for the trace of one call). -/
inductive Eff where
  | regJob (j : Job)
  | insertNote (uid : Int) (content : Str) (due : Option DT)
  | deleteNote (i : Int)
  | queryNotes (uid : Int)
deriving DecidableEq, Repr

/-- Everything observable about one `process_gemini_response` call. -/
structure Result where
  store : Store
  jobs : List Job
  msgs : List Str
  logs : List Str
  trace : List Eff
  exn : Option PyErr
deriving DecidableEq, Repr

/-- Ambient data of a call: the requesting user, the current instant (read by
the CONSULTAR branch via `datetime.now`), and whether the storage layer fails
the INSERT (sqlite I/O error injection). -/
structure Ctx where
  user_id : Int
  now : DT
  insertFail : Bool
deriving DecidableEq, Repr

/-- The result when no directive is executed: only the natural reply. -/
def noopResult (text : Str) (st : Store) (jobs : List Job) : Result :=
  { store := st, jobs := jobs, msgs := [naturalReply text], logs := [],
    trace := [], exn := none }

def debugMsg (cl : Str) : Str :=
  "(Debug: Não consegui entender o comando: ".toList ++ cl ++ ")".toList

def emptyNoteMsg : Str :=
  "Erro no processamento: a IA tentou salvar uma nota vazia.".toList

def agendarFailMsg (e : PyErr) : Str :=
  "Tentei agendar, mas falhei. A IA formatou a data/hora errado. (Erro: ".toList
    ++ errStr e ++ ")".toList

def agendarLogMsg (e : PyErr) (raw : Str) : Str :=
  "Erro ao agendar lembrete: ".toList ++ errStr e ++ ". Raw data: ".toList ++ raw

def invalidIdMsg (s : Str) : Str :=
  "Erro: A IA tentou apagar um ID inválido: ".toList ++ s

/-- Two-digit zero padding of `strftime`. -/
def pad2 (n : Nat) : Str := if n < 10 then '0' :: natToStr n else natToStr n

/-- Rendering `strftime` with format `%d/%m às %H:%M` on a stored timestamp. -/
def fmtShort (t : DT) : Str :=
  pad2 t.d ++ "/".toList ++ pad2 t.mo ++ " às ".toList ++ pad2 t.h
    ++ ":".toList ++ pad2 t.mi

def pendLine (n : Note) : Str :=
  "  **ID ".toList ++ natToStr n.id ++ "**: ".toList ++ n.content
    ++ " (Para: ".toList ++ fmtShort (dueKey n) ++ ")\n".toList

def concLine (n : Note) : Str :=
  "  **ID ".toList ++ natToStr n.id ++ "**: ".toList ++ n.content
    ++ " (Era: ".toList ++ fmtShort (dueKey n) ++ ")\n".toList

def simpLine (n : Note) : Str :=
  "  **ID ".toList ++ natToStr n.id ++ "**: ".toList ++ n.content ++ "\n".toList

/-- The `resposta` string built by the CONSULTAR_NOTAS branch
(src/cod.py 181-206). -/
def renderConsulta (pend conc simples : List Note) : Str :=
  "📝 **SEUS REGISTROS, BRENO:**\n\n⏰ **LEMBRETES PENDENTES (Para Fazer):**\n".toList
    ++ (if pend.isEmpty then ("  (Nenhum lembrete pendente)\n".toList)
        else (pend.map pendLine).flatten)
    ++ "\n✅ **LEMBRETES CONCLUÍDOS (Já passaram):**\n".toList
    ++ (if conc.isEmpty then ("  (Nenhum lembrete concluído)\n".toList)
        else (conc.map concLine).flatten)
    ++ "\n🗒️ **NOTAS SIMPLES:**\n".toList
    ++ (if simples.isEmpty then ("  (Nenhuma nota simples)\n".toList)
        else (simples.map simpLine).flatten)

/-- The separator `'", "'` of the AGENDAR_LEMBRETE payload. -/
def agendarSep : Str := "\", \"".toList

/-- The scheduler key the code passes as `name=str(user_id) + lembrete_time_str`
(src/cod.py line 165). -/
def jobName (user_id : Int) (timeStr : Str) : Str := intToStr user_id ++ timeStr

/-- The job the AGENDAR_LEMBRETE branch registers for payload `raw` whose
second split part is `p1` and parses to `dt`. -/
def agendarJob (ctx : Ctx) (raw p1 : Str) (dt : DT) : Job :=
  { chat_id := ctx.user_id, fire_at := dt,
    data := stripQuotes ((pySplit agendarSep raw).headD []),
    name := jobName ctx.user_id (stripQuotes p1) }

/-- Dispatch on the matched intent (src/cod.py 144-219).  `base` already
contains the natural reply. -/
def execDirective (intent raw : Str) (ctx : Ctx) (st : Store)
    (jobs : List Job) (base : Result) : Result :=
  if intent = "SALVAR_NOTA".toList then
    let entity := stripQuotes raw
    if entity.isEmpty then { base with msgs := base.msgs ++ [emptyNoteMsg] }
    else if ctx.insertFail then
      -- `adicionar_nota` raises; the SALVAR branch has no try/except, so the
      -- exception escapes to the caller (src/cod.py 147 has no handler).
      { base with exn := some .sqliteError }
    else
      { base with store := adicionar_nota ctx.user_id entity none st,
                  trace := [.insertNote ctx.user_id entity none] }
  else if intent = "AGENDAR_LEMBRETE".toList then
    let ps := pySplit agendarSep raw
    match ps[1]? with
    | none =>
      -- `parts[1]` raises IndexError, caught by the branch handler.
      { base with msgs := base.msgs ++ [agendarFailMsg .indexError],
                  logs := [agendarLogMsg .indexError raw] }
    | some p1 =>
      let entity := stripQuotes (ps.headD [])
      let tstr := stripQuotes p1
      match strptime tstr with
      | .error e =>
        { base with msgs := base.msgs ++ [agendarFailMsg e],
                    logs := [agendarLogMsg e raw] }
      | .ok dt =>
        let j : Job := { chat_id := ctx.user_id, fire_at := dt, data := entity,
                         name := jobName ctx.user_id tstr }
        if ctx.insertFail then
          -- run_once already succeeded; adicionar_nota raises and the branch
          -- handler reports the failure, leaving the job registered.
          { base with jobs := jobs ++ [j], trace := [.regJob j],
                      msgs := base.msgs ++ [agendarFailMsg .sqliteError],
                      logs := [agendarLogMsg .sqliteError raw] }
        else
          { base with jobs := jobs ++ [j],
                      store := adicionar_nota ctx.user_id entity (some dt) st,
                      trace := [.regJob j,
                                .insertNote ctx.user_id entity (some dt)] }
  else if intent = "CONSULTAR_NOTAS".toList then
    { base with
        msgs := base.msgs ++
          [renderConsulta (consultar_notas_pendentes st ctx.user_id ctx.now)
            (consultar_notas_concluidas st ctx.user_id ctx.now)
            (consultar_notas_simples st ctx.user_id)],
        trace := [.queryNotes ctx.user_id] }
  else if intent = "DELETAR_NOTA_POR_ID".toList then
    let idStr := stripQuotes raw
    match pyInt idStr with
    | none => { base with msgs := base.msgs ++ [invalidIdMsg idStr] }
    | some i =>
      { base with store := deletar_nota i st, trace := [.deleteNote i] }
  else
    -- Unknown but well-formed intent: no elif matches, the function just
    -- returns (src/cod.py has no else branch).
    base

/-- Model of `process_gemini_response` (src/cod.py 121-219) as a pure function. -/
def process_gemini_response (text : Str) (ctx : Ctx) (st : Store)
    (jobs : List Job) : Result :=
  match candidateDirective text with
  | none => noopResult text st jobs
  | some cl =>
    if rejectsCandidate (some cl) then noopResult text st jobs
    else
      match matchDirective cl with
      | none =>
        if cl = "[CONVERSAR]".toList then noopResult text st jobs
        else
          { noopResult text st jobs with
              msgs := [naturalReply text, debugMsg cl] }
      | some (intent, raw) =>
        execDirective intent raw ctx st jobs (noopResult text st jobs)

/-! ## Startup (`main`, src/cod.py 330-341) -/

inductive StartupStep where
  | setupDatabase
  | buildApplication (persistenceFile : Str)
  | addStartHandler
  | addTextHandler
  | addVoiceHandler
  | runPolling
deriving DecidableEq, Repr

/-- The statements `main` executes, in order. -/
def mainStartup : List StartupStep :=
  [.setupDatabase,
   .buildApplication ("orion_lembretes_persistentes.pkl".toList),
   .addStartHandler, .addTextHandler, .addVoiceHandler, .runPolling]

/-- Scheduler jobs a startup step registers from the note store.  From the
source: `setup_database` only issues CREATE TABLE / ALTER TABLE, building the
application only configures `PicklePersistence` (a separate snapshot file),
and no startup statement reads the `notas` table or calls `run_once`. -/
def stepJobs (_st : Store) : StartupStep → List Job
  | .setupDatabase => []
  | .buildApplication _ => []
  | .addStartHandler => []
  | .addTextHandler => []
  | .addVoiceHandler => []
  | .runPolling => []

/-- The scheduler job set right after `main`'s startup sequence, as derived
from the note store. -/
def startupJobs (st : Store) : List Job := (mainStartup.map (stepJobs st)).flatten

/-- ISO rendering `YYYY-MM-DD HH:MM:SS` of a timestamp (used only by the
spec-side recovery model below). -/
def dtISO (t : DT) : Str :=
  natToStr t.y ++ "-".toList ++ pad2 t.mo ++ "-".toList ++ pad2 t.d
    ++ " ".toList ++ pad2 t.h ++ ":".toList ++ pad2 t.mi ++ ":".toList ++ pad2 t.s

/-- Modelled from the spec: the recovery the specification describes but the
source does not contain — on startup the scheduler rebuilds its pending jobs
from the Note Store rows whose `due_at` is set and in the future at load
time, keyed per (owner, fire time, content). -/
def specRecoveredJobs (st : Store) (loadTime : DT) : List Job :=
  (st.notas.filter (fun n =>
      match n.due_at with
      | some d => dtLt loadTime d
      | none => false)).map
    (fun n =>
      { chat_id := n.user_id, fire_at := dueKey n, data := n.content,
        name := jobName n.user_id (dtISO (dueKey n)) ++ n.content })

/-- Number of notes in a query result carrying a given content. -/
def countContent (l : List Note) (c : Str) : Nat :=
  l.countP (fun n => decide (n.content = c))

/-- Index of the first non-digit character (length if none). -/
def ndIdx : Str → Nat
  | [] => 0
  | c :: r => if c.isDigit then ndIdx r + 1 else 0

/-! ## General lemmas about the string primitives -/

theorem isPrefOf_append_self (l y : Str) : isPrefOf l (l ++ y) = true := by
  induction l with
  | nil => rfl
  | cons c r ih => simp [isPrefOf, ih]

theorem occursIn_append_self (p y : Str) : occursIn p (p ++ y) = true := by
  cases p with
  | nil =>
    cases y with
    | nil => rfl
    | cons c r => simp [occursIn, isPrefOf]
  | cons c r =>
    show (isPrefOf (c :: r) (c :: (r ++ y)) || occursIn (c :: r) (r ++ y)) = true
    have h := isPrefOf_append_self (c :: r) y
    rw [List.cons_append] at h
    rw [h]
    rfl

theorem occursIn_mid (p x y : Str) : occursIn p (x ++ p ++ y) = true := by
  induction x with
  | nil => simpa using occursIn_append_self p y
  | cons c r ih =>
    simp only [List.cons_append, occursIn]
    rw [show (r.append p).append y = r ++ p ++ y from rfl, ih, Bool.or_true]

theorem occursIn_append_end (p x : Str) : occursIn p (x ++ p) = true := by
  have h := occursIn_mid p x []
  simpa using h

/-! ## Order lemmas for timestamps -/

theorem dtLt_char (a b : DT) : dtLt a b = true ↔
    (a.y < b.y ∨ (a.y = b.y ∧ (a.mo < b.mo ∨ (a.mo = b.mo ∧
     (a.d < b.d ∨ (a.d = b.d ∧ (a.h < b.h ∨ (a.h = b.h ∧
      (a.mi < b.mi ∨ (a.mi = b.mi ∧ a.s < b.s)))))))))) := by
  simp [dtLt]

theorem dtEq_char (a b : DT) : a = b ↔
    (a.y = b.y ∧ a.mo = b.mo ∧ a.d = b.d ∧ a.h = b.h ∧ a.mi = b.mi ∧ a.s = b.s) := by
  cases a; cases b; simp [DT.mk.injEq]

theorem dtLe_char (a b : DT) : dtLe a b = true ↔
    (dtLt a b = true ∨ a = b) := by
  simp [dtLe]

theorem dtLe_refl (a : DT) : dtLe a a = true := by
  rw [dtLe_char]; exact Or.inr rfl

theorem dtLt_irrefl (a : DT) : dtLt a a = false := by
  rw [Bool.eq_false_iff]
  intro h
  rw [dtLt_char] at h
  omega

theorem dtLe_total (a b : DT) : dtLe a b = true ∨ dtLe b a = true := by
  rw [dtLe_char, dtLe_char, dtLt_char, dtLt_char, dtEq_char, dtEq_char]
  omega

theorem dtLe_trans {a b c : DT} (h1 : dtLe a b = true) (h2 : dtLe b c = true) :
    dtLe a c = true := by
  rw [dtLe_char, dtLt_char, dtEq_char] at h1 h2 ⊢
  omega

theorem dtLt_iff_not_le (a b : DT) : dtLt a b = true ↔ ¬(dtLe b a = true) := by
  rw [dtLe_char, dtLt_char, dtLt_char, dtEq_char]
  omega

instance : IsTotal Note noteDueLe :=
  ⟨fun a b => dtLe_total (dueKey a) (dueKey b)⟩

instance : IsTrans Note noteDueLe :=
  ⟨fun _ _ _ h1 h2 => dtLe_trans h1 h2⟩

instance : IsTotal Note noteDueGe :=
  ⟨fun a b => (dtLe_total (dueKey b) (dueKey a)).imp id id⟩

instance : IsTrans Note noteDueGe :=
  ⟨fun _ _ _ h1 h2 => dtLe_trans h2 h1⟩

instance : IsTotal Note noteIdGe :=
  ⟨fun a b => (Nat.le_total b.id a.id).imp id id⟩

instance : IsTrans Note noteIdGe :=
  ⟨fun _ _ _ h1 h2 => Nat.le_trans h2 h1⟩

/-! ## Shared concrete fixtures for witnesses -/

/-- A concrete instant used by witnesses. -/
def wNow : DT := ⟨2025, 11, 1, 9, 0, 0⟩

/-- A concrete call context used by witnesses. -/
def wCtx : Ctx := { user_id := 42, now := wNow, insertFail := false }

/-- An empty concrete store used by witnesses. -/
def wStore : Store := { nextId := 1, notas := [] }

/-! ## Claims -/

/-- C1: the parser takes the stripped last line as the candidate directive
only when the reply has more than one line; whenever the candidate is absent
(in particular for any single-line reply) or empty or does not both start
with `[` and end with `]`, the call performs no store mutation, registers no
job, and sends no message beyond the first-line natural reply. -/
theorem C1_reject_is_noop :
    (∀ text ctx st jobs, rejectsCandidate (candidateDirective text) = true →
      process_gemini_response text ctx st jobs = noopResult text st jobs) ∧
    (∀ text ctx st jobs, (splitNL text).length = 1 →
      process_gemini_response text ctx st jobs = noopResult text st jobs) := by
  constructor
  · intro text ctx st jobs hrej
    cases hc : candidateDirective text with
    | none => simp [process_gemini_response, hc]
    | some cl =>
      rw [hc] at hrej
      simp [process_gemini_response, hc, hrej]
  · intro text ctx st jobs hlen
    have hc : candidateDirective text = none := by
      simp [candidateDirective, hlen]
    simp [process_gemini_response, hc]

/-- Witness for C1 at two concrete replies: a plain multi-line conversation
whose last line is not bracketed, and a single-line reply consisting of a
well-formed directive (which the code still ignores). -/
theorem C1_reject_is_noop_witness :
    (rejectsCandidate (candidateDirective ("Claro!\nAté logo.".toList)) = true ∧
      process_gemini_response ("Claro!\nAté logo.".toList) wCtx wStore [] =
        noopResult ("Claro!\nAté logo.".toList) wStore []) ∧
    ((splitNL ("[CONSULTAR_NOTAS: \"TODAS\"]".toList)).length = 1 ∧
      process_gemini_response ("[CONSULTAR_NOTAS: \"TODAS\"]".toList) wCtx wStore [] =
        noopResult ("[CONSULTAR_NOTAS: \"TODAS\"]".toList) wStore []) :=
  ⟨⟨by decide, C1_reject_is_noop.1 _ wCtx wStore [] (by decide)⟩,
   ⟨by decide, C1_reject_is_noop.2 _ wCtx wStore [] (by decide)⟩⟩

/-- C7: a bracket-delimited candidate that does not match `[WORD: REST]` and
is not the literal `[CONVERSAR]` yields a user-visible diagnostic message
(and no store mutation); the literal `[CONVERSAR]` yields no diagnostic and
no store mutation. -/
theorem C7_malformed_directive_diagnostic :
    ∀ text ctx st jobs cl,
      candidateDirective text = some cl →
      rejectsCandidate (some cl) = false →
      matchDirective cl = none →
      (cl ≠ "[CONVERSAR]".toList →
        process_gemini_response text ctx st jobs =
          { noopResult text st jobs with msgs := [naturalReply text, debugMsg cl] }) ∧
      (cl = "[CONVERSAR]".toList →
        process_gemini_response text ctx st jobs = noopResult text st jobs) := by
  intro text ctx st jobs cl hc hrej hm
  constructor
  · intro hne
    simp only [ne_eq] at hne
    simp [process_gemini_response, hc, hrej, hm, noopResult]
    simpa using hne
  · intro heq
    subst heq
    simp [process_gemini_response, hc, hrej, hm]
    exact fun _ => rfl

/-- Witness for C7: the garbled candidate `[???]` draws the debug message,
while `[CONVERSAR]` is silent. -/
theorem C7_malformed_directive_diagnostic_witness :
    (process_gemini_response ("Hm\n[???]".toList) wCtx wStore [] =
      { noopResult ("Hm\n[???]".toList) wStore [] with
          msgs := [naturalReply ("Hm\n[???]".toList), debugMsg ("[???]".toList)] }) ∧
    (process_gemini_response ("Hm\n[CONVERSAR]".toList) wCtx wStore [] =
      noopResult ("Hm\n[CONVERSAR]".toList) wStore []) :=
  ⟨(C7_malformed_directive_diagnostic _ wCtx wStore [] ("[???]".toList)
      (by decide) (by decide) (by decide)).1 (by decide),
   (C7_malformed_directive_diagnostic _ wCtx wStore [] ("[CONVERSAR]".toList)
      (by decide) (by decide) (by decide)).2 (by decide)⟩

/-- C9: a candidate matching `[WORD: REST]` whose WORD is none of the four
known intents is a silent no-op: no store mutation, no job, no diagnostic or
error message. -/
theorem C9_unknown_intent_silent :
    ∀ text ctx st jobs cl w raw,
      candidateDirective text = some cl →
      rejectsCandidate (some cl) = false →
      matchDirective cl = some (w, raw) →
      w ≠ "SALVAR_NOTA".toList →
      w ≠ "AGENDAR_LEMBRETE".toList →
      w ≠ "CONSULTAR_NOTAS".toList →
      w ≠ "DELETAR_NOTA_POR_ID".toList →
      process_gemini_response text ctx st jobs = noopResult text st jobs := by
  intro text ctx st jobs cl w raw hc hrej hm h1 h2 h3 h4
  simp only [ne_eq] at h1 h2 h3 h4
  simp at h1 h2 h3 h4
  simp [process_gemini_response, hc, hrej, hm, execDirective, h1, h2, h3, h4]

/-- Witness for C9: the well-formed but unknown directive
`[FAZER_CAFE: "x"]` leaves state and messages untouched. -/
theorem C9_unknown_intent_silent_witness :
    process_gemini_response ("Hm\n[FAZER_CAFE: \"x\"]".toList) wCtx wStore [] =
      noopResult ("Hm\n[FAZER_CAFE: \"x\"]".toList) wStore [] :=
  C9_unknown_intent_silent _ wCtx wStore [] ("[FAZER_CAFE: \"x\"]".toList)
    ("FAZER_CAFE".toList) ("\"x\"".toList) (by decide) (by decide)
    (by decide) (by decide) (by decide) (by decide) (by decide)

/-- C5: `deletar_nota` removes the id from all three query views, deleting a
non-existent id leaves the store unchanged (no error — the function is
total), and a second delete of the same id is a no-op. -/
theorem C5_delete_idempotent :
    ∀ (st : Store) (i : Int),
      (∀ uid now n, n ∈ consultar_notas_pendentes (deletar_nota i st) uid now →
        (n.id : Int) ≠ i) ∧
      (∀ uid now n, n ∈ consultar_notas_concluidas (deletar_nota i st) uid now →
        (n.id : Int) ≠ i) ∧
      (∀ uid n, n ∈ consultar_notas_simples (deletar_nota i st) uid →
        (n.id : Int) ≠ i) ∧
      deletar_nota i (deletar_nota i st) = deletar_nota i st ∧
      ((∀ n ∈ st.notas, (n.id : Int) ≠ i) → deletar_nota i st = st) := by
  intro st i
  have hmemdel : ∀ n, n ∈ (deletar_nota i st).notas → (n.id : Int) ≠ i := by
    intro n hn
    have := List.of_mem_filter hn
    simpa using this
  refine ⟨?_, ?_, ?_, ?_, ?_⟩
  · intro uid now n hn
    rw [consultar_notas_pendentes, List.mem_insertionSort] at hn
    exact hmemdel n (List.mem_of_mem_filter hn)
  · intro uid now n hn
    rw [consultar_notas_concluidas, List.mem_insertionSort] at hn
    exact hmemdel n (List.mem_of_mem_filter hn)
  · intro uid n hn
    rw [consultar_notas_simples, List.mem_insertionSort] at hn
    exact hmemdel n (List.mem_of_mem_filter hn)
  · show Store.mk _ _ = Store.mk _ _
    congr 1
    apply List.filter_eq_self.mpr
    intro n hn
    simpa using hmemdel n hn
  · intro h
    cases st with
    | mk nid notas =>
      show Store.mk _ _ = Store.mk _ _
      congr 1
      apply List.filter_eq_self.mpr
      intro n hn
      simpa using h n hn

/-- Witness for C5: deleting the absent id 7 from a concrete two-note store
is a no-op, and deleting id 1 twice equals deleting it once. -/
theorem C5_delete_idempotent_witness :
    deletar_nota 7 ⟨3, [⟨1, 42, ['a'], none⟩, ⟨2, 42, ['b'], none⟩]⟩ =
        ⟨3, [⟨1, 42, ['a'], none⟩, ⟨2, 42, ['b'], none⟩]⟩ ∧
      deletar_nota 1 (deletar_nota 1 ⟨3, [⟨1, 42, ['a'], none⟩, ⟨2, 42, ['b'], none⟩]⟩) =
        deletar_nota 1 ⟨3, [⟨1, 42, ['a'], none⟩, ⟨2, 42, ['b'], none⟩]⟩ :=
  ⟨(C5_delete_idempotent ⟨3, [⟨1, 42, ['a'], none⟩, ⟨2, 42, ['b'], none⟩]⟩ 7).2.2.2.2
      (by decide),
   (C5_delete_idempotent ⟨3, [⟨1, 42, ['a'], none⟩, ⟨2, 42, ['b'], none⟩]⟩ 1).2.2.2.1⟩

/-- C3: `consultar_notas_pendentes` returns exactly the owner's notes with
`due_at > now` in ascending `due_at` order, `consultar_notas_concluidas`
returns exactly the owner's notes with `due_at <= now` in descending order,
the two views partition the owner's reminder notes, and a note whose
`due_at` equals `now` is classified as completed, not pending. -/
theorem C3_pending_completed_partition :
    ∀ (st : Store) (uid : Int) (now : DT),
      (consultar_notas_pendentes st uid now).Perm
          (st.notas.filter (pendPred uid now)) ∧
      List.Sorted noteDueLe (consultar_notas_pendentes st uid now) ∧
      (consultar_notas_concluidas st uid now).Perm
          (st.notas.filter (concPred uid now)) ∧
      List.Sorted noteDueGe (consultar_notas_concluidas st uid now) ∧
      (∀ n ∈ st.notas, n.user_id = uid → ∀ d, n.due_at = some d →
        ((n ∈ consultar_notas_pendentes st uid now ↔ dtLt now d = true) ∧
         (n ∈ consultar_notas_concluidas st uid now ↔ dtLe d now = true) ∧
         (n ∈ consultar_notas_pendentes st uid now ↔
            ¬(n ∈ consultar_notas_concluidas st uid now)))) ∧
      (∀ n ∈ st.notas, n.user_id = uid → n.due_at = some now →
        n ∈ consultar_notas_concluidas st uid now ∧
          ¬(n ∈ consultar_notas_pendentes st uid now)) := by
  intro st uid now
  have hpmem : ∀ n, n ∈ consultar_notas_pendentes st uid now ↔
      (n ∈ st.notas ∧ pendPred uid now n = true) := by
    intro n
    rw [consultar_notas_pendentes, List.mem_insertionSort, List.mem_filter]
  have hcmem : ∀ n, n ∈ consultar_notas_concluidas st uid now ↔
      (n ∈ st.notas ∧ concPred uid now n = true) := by
    intro n
    rw [consultar_notas_concluidas, List.mem_insertionSort, List.mem_filter]
  have hkey : ∀ n ∈ st.notas, n.user_id = uid → ∀ d, n.due_at = some d →
      (pendPred uid now n = dtLt now d ∧ concPred uid now n = dtLe d now) := by
    intro n _ hu d hd
    constructor
    · simp [pendPred, hu, hd]
    · simp [concPred, hu, hd]
  refine ⟨List.perm_insertionSort _ _, List.sorted_insertionSort _ _,
    List.perm_insertionSort _ _, List.sorted_insertionSort _ _, ?_, ?_⟩
  · intro n hn hu d hd
    obtain ⟨hp, hc⟩ := hkey n hn hu d hd
    refine ⟨?_, ?_, ?_⟩
    · rw [hpmem]
      simp [hn, hp]
    · rw [hcmem]
      simp [hn, hc]
    · rw [hpmem, hcmem]
      simp only [hn, true_and, hp, hc]
      rw [dtLt_iff_not_le]
  · intro n hn hu hd
    obtain ⟨hp, hc⟩ := hkey n hn hu now hd
    constructor
    · rw [hcmem]
      simp [hn, hc, dtLe_refl]
    · rw [hpmem]
      simp [hn, hp, dtLt_irrefl]

/-- Witness for C3 at a concrete store: the note due exactly at `now` shows
up among the completed and not among the pending ones. -/
theorem C3_pending_completed_partition_witness :
    (⟨2, 42, ['b'], some wNow⟩ : Note) ∈
        consultar_notas_concluidas ⟨3, [⟨1, 42, ['a'], some ⟨2025, 11, 2, 10, 0, 0⟩⟩,
          ⟨2, 42, ['b'], some wNow⟩]⟩ 42 wNow ∧
      ¬((⟨2, 42, ['b'], some wNow⟩ : Note) ∈
        consultar_notas_pendentes ⟨3, [⟨1, 42, ['a'], some ⟨2025, 11, 2, 10, 0, 0⟩⟩,
          ⟨2, 42, ['b'], some wNow⟩]⟩ 42 wNow) :=
  (C3_pending_completed_partition ⟨3, [⟨1, 42, ['a'], some ⟨2025, 11, 2, 10, 0, 0⟩⟩,
      ⟨2, 42, ['b'], some wNow⟩]⟩ 42 wNow).2.2.2.2.2
    ⟨2, 42, ['b'], some wNow⟩ (by decide) (by decide) (by decide)

/-- Auxiliary: the simple-notes count of a content rises by exactly one when
a simple note with that content is inserted for the owner. -/
theorem countContent_adicionar (st : Store) (uid : Int) (e : Str) :
    countContent (consultar_notas_simples (adicionar_nota uid e none st) uid) e =
      countContent (consultar_notas_simples st uid) e + 1 := by
  have h1 : ∀ st' : Store, countContent (consultar_notas_simples st' uid) e =
      (st'.notas.filter (simpPred uid)).countP (fun n => decide (n.content = e)) := by
    intro st'
    exact (List.perm_insertionSort _ _).countP_eq _
  rw [h1, h1, adicionar_nota]
  simp [List.filter_append, List.countP_append, simpPred]

/-- C4 (amended): a SALVAR_NOTA directive with non-empty stripped content
inserts a note with that content and no due date for the requesting owner,
sends no extra message, and the simple-notes query for the owner afterwards
returns that content exactly one more time than before — hence exactly once
when the owner had no prior simple note with the same content.  Empty
stripped content draws the error message and stores nothing. -/
theorem C4_salvar_nota :
    ∀ text ctx st jobs cl raw,
      candidateDirective text = some cl →
      rejectsCandidate (some cl) = false →
      matchDirective cl = some ("SALVAR_NOTA".toList, raw) →
      ctx.insertFail = false →
      (stripQuotes raw ≠ [] →
        (process_gemini_response text ctx st jobs).store =
            adicionar_nota ctx.user_id (stripQuotes raw) none st ∧
        (process_gemini_response text ctx st jobs).jobs = jobs ∧
        (process_gemini_response text ctx st jobs).msgs = [naturalReply text] ∧
        countContent (consultar_notas_simples
              (process_gemini_response text ctx st jobs).store ctx.user_id)
            (stripQuotes raw) =
          countContent (consultar_notas_simples st ctx.user_id)
            (stripQuotes raw) + 1 ∧
        (countContent (consultar_notas_simples st ctx.user_id)
            (stripQuotes raw) = 0 →
          countContent (consultar_notas_simples
                (process_gemini_response text ctx st jobs).store ctx.user_id)
              (stripQuotes raw) = 1)) ∧
      (stripQuotes raw = [] →
        process_gemini_response text ctx st jobs =
          { noopResult text st jobs with
              msgs := [naturalReply text, emptyNoteMsg] }) := by
  intro text ctx st jobs cl raw hc hrej hm hif
  have hproc : process_gemini_response text ctx st jobs =
      execDirective ("SALVAR_NOTA".toList) raw ctx st jobs (noopResult text st jobs) := by
    simp [process_gemini_response, hc, hrej, hm]
  constructor
  · intro hne
    have hx : execDirective ("SALVAR_NOTA".toList) raw ctx st jobs
        (noopResult text st jobs) =
        { noopResult text st jobs with
            store := adicionar_nota ctx.user_id (stripQuotes raw) none st,
            trace := [.insertNote ctx.user_id (stripQuotes raw) none] } := by
      rw [execDirective]
      rw [if_pos rfl]
      rw [if_neg (by simpa [List.isEmpty_iff] using hne), if_neg (by simp [hif])]
    rw [hproc, hx]
    refine ⟨rfl, rfl, rfl, countContent_adicionar st ctx.user_id (stripQuotes raw), ?_⟩
    intro h0
    rw [countContent_adicionar st ctx.user_id (stripQuotes raw), h0]
  · intro hemp
    have hx : execDirective ("SALVAR_NOTA".toList) raw ctx st jobs
        (noopResult text st jobs) =
        { noopResult text st jobs with
            msgs := [naturalReply text, emptyNoteMsg] } := by
      rw [execDirective]
      rw [if_pos rfl, if_pos (by simp [List.isEmpty_iff, hemp])]
      rfl
    rw [hproc, hx]

/-- Witness for C4 on the empty store: `[SALVAR_NOTA: "buy milk"]` for owner
42 stores the note and the simple-notes query then returns the content
exactly once. -/
theorem C4_salvar_nota_witness :
    (process_gemini_response ("Ok!\n[SALVAR_NOTA: \"buy milk\"]".toList)
          wCtx wStore []).store =
        adicionar_nota 42 ("buy milk".toList) none wStore ∧
      countContent (consultar_notas_simples
            (process_gemini_response ("Ok!\n[SALVAR_NOTA: \"buy milk\"]".toList)
              wCtx wStore []).store 42)
          ("buy milk".toList) = 1 := by
  have h := (C4_salvar_nota ("Ok!\n[SALVAR_NOTA: \"buy milk\"]".toList) wCtx wStore []
      ("[SALVAR_NOTA: \"buy milk\"]".toList) ("\"buy milk\"".toList)
      (by decide) (by decide) (by decide) (by decide)).1 (by decide)
  exact ⟨h.1, h.2.2.2.2 (by decide)⟩

/-- Counterexample to C4 as stated: owner 42 already has a simple note
"milk"; the valid directive `[SALVAR_NOTA: "milk"]` succeeds, and the
subsequent simple-notes query returns that content twice — not exactly
once. -/
theorem C4_salvar_nota_counterexample :
    countContent
        (consultar_notas_simples
          (process_gemini_response ("Ok!\n[SALVAR_NOTA: \"milk\"]".toList) wCtx
              ⟨2, [⟨1, 42, "milk".toList, none⟩]⟩ []).store 42)
        ("milk".toList) = 2 ∧
      ¬countContent
        (consultar_notas_simples
          (process_gemini_response ("Ok!\n[SALVAR_NOTA: \"milk\"]".toList) wCtx
              ⟨2, [⟨1, 42, "milk".toList, none⟩]⟩ []).store 42)
        ("milk".toList) = 1 := by
  constructor
  · decide
  · decide

/-- C2 (amended): a well-formed AGENDAR_LEMBRETE payload whose second part
carries a valid `YYYY-MM-DD HH:MM:SS` timestamp registers the scheduler job
and inserts the note with `due_at` equal to the parsed timestamp; any parse
failure (missing separator or invalid timestamp) sends a user-visible error
carrying the underlying parse error, writes the raw payload to the error
log, and leaves both the store and the job set unchanged. -/
theorem C2_agendar_lembrete :
    ∀ text ctx st jobs cl raw,
      candidateDirective text = some cl →
      rejectsCandidate (some cl) = false →
      matchDirective cl = some ("AGENDAR_LEMBRETE".toList, raw) →
      (∀ p1 dt, (pySplit agendarSep raw)[1]? = some p1 →
        strptime (stripQuotes p1) = .ok dt →
        ctx.insertFail = false →
        process_gemini_response text ctx st jobs =
          { noopResult text st jobs with
              jobs := jobs ++ [agendarJob ctx raw p1 dt],
              store := adicionar_nota ctx.user_id
                (stripQuotes ((pySplit agendarSep raw).headD [])) (some dt) st,
              trace := [.regJob (agendarJob ctx raw p1 dt),
                .insertNote ctx.user_id
                  (stripQuotes ((pySplit agendarSep raw).headD [])) (some dt)] }) ∧
      ((pySplit agendarSep raw)[1]? = none →
        process_gemini_response text ctx st jobs =
          { noopResult text st jobs with
              msgs := [naturalReply text, agendarFailMsg .indexError],
              logs := [agendarLogMsg .indexError raw] }) ∧
      (∀ p1 e, (pySplit agendarSep raw)[1]? = some p1 →
        strptime (stripQuotes p1) = .error e →
        process_gemini_response text ctx st jobs =
          { noopResult text st jobs with
              msgs := [naturalReply text, agendarFailMsg e],
              logs := [agendarLogMsg e raw] }) ∧
      (∀ e : PyErr, occursIn raw (agendarLogMsg e raw) = true ∧
        occursIn (errStr e) (agendarFailMsg e) = true) := by
  intro text ctx st jobs cl raw hc hrej hm
  have hproc : process_gemini_response text ctx st jobs =
      execDirective ("AGENDAR_LEMBRETE".toList) raw ctx st jobs
        (noopResult text st jobs) := by
    simp [process_gemini_response, hc, hrej, hm]
  refine ⟨?_, ?_, ?_, ?_⟩
  · intro p1 dt h1 hst hif
    rw [hproc, execDirective, if_neg (by decide), if_pos rfl]
    simp only [h1, hst, hif]
    rfl
  · intro h1
    rw [hproc, execDirective, if_neg (by decide), if_pos rfl]
    simp only [h1]
    rfl
  · intro p1 e h1 hst
    rw [hproc, execDirective, if_neg (by decide), if_pos rfl]
    simp only [h1, hst]
    rfl
  · intro e
    constructor
    · rw [agendarLogMsg]
      exact occursIn_append_end raw _
    · rw [agendarFailMsg]
      exact occursIn_mid (errStr e) _ _

/-- Witness for C2: a fully valid schedule directive registers the job and
stores the reminder; the malformed timestamp of the spec's test case is
rejected with no insert and no job. -/
theorem C2_agendar_lembrete_witness :
    (process_gemini_response
        ("Ok!\n[AGENDAR_LEMBRETE: \"call dentist\", \"2025-11-02 10:00:00\"]".toList)
        wCtx wStore [] =
      { noopResult
          ("Ok!\n[AGENDAR_LEMBRETE: \"call dentist\", \"2025-11-02 10:00:00\"]".toList)
          wStore [] with
          jobs := [agendarJob wCtx
            ("\"call dentist\", \"2025-11-02 10:00:00\"".toList)
            ("2025-11-02 10:00:00\"".toList) ⟨2025, 11, 2, 10, 0, 0⟩],
          store := adicionar_nota 42 ("call dentist".toList)
            (some ⟨2025, 11, 2, 10, 0, 0⟩) wStore,
          trace := [.regJob (agendarJob wCtx
              ("\"call dentist\", \"2025-11-02 10:00:00\"".toList)
              ("2025-11-02 10:00:00\"".toList) ⟨2025, 11, 2, 10, 0, 0⟩),
            .insertNote 42 ("call dentist".toList)
              (some ⟨2025, 11, 2, 10, 0, 0⟩)] }) ∧
    (process_gemini_response
        ("Ok!\n[AGENDAR_LEMBRETE: \"x\", \"2025-13-40 99:99:99\"]".toList)
        wCtx wStore [] =
      { noopResult ("Ok!\n[AGENDAR_LEMBRETE: \"x\", \"2025-13-40 99:99:99\"]".toList)
          wStore [] with
          msgs := [naturalReply
              ("Ok!\n[AGENDAR_LEMBRETE: \"x\", \"2025-13-40 99:99:99\"]".toList),
            agendarFailMsg (.valueError (noMatchMsg ("2025-13-40 99:99:99".toList)))],
          logs := [agendarLogMsg
            (.valueError (noMatchMsg ("2025-13-40 99:99:99".toList)))
            ("\"x\", \"2025-13-40 99:99:99\"".toList)] }) :=
  ⟨(C2_agendar_lembrete
      ("Ok!\n[AGENDAR_LEMBRETE: \"call dentist\", \"2025-11-02 10:00:00\"]".toList)
      wCtx wStore []
      ("[AGENDAR_LEMBRETE: \"call dentist\", \"2025-11-02 10:00:00\"]".toList)
      ("\"call dentist\", \"2025-11-02 10:00:00\"".toList)
      (by decide) (by decide) (by decide)).1
      ("2025-11-02 10:00:00\"".toList) ⟨2025, 11, 2, 10, 0, 0⟩
      (by decide) (by rfl) (by decide),
   (C2_agendar_lembrete
      ("Ok!\n[AGENDAR_LEMBRETE: \"x\", \"2025-13-40 99:99:99\"]".toList)
      wCtx wStore []
      ("[AGENDAR_LEMBRETE: \"x\", \"2025-13-40 99:99:99\"]".toList)
      ("\"x\", \"2025-13-40 99:99:99\"".toList)
      (by decide) (by decide) (by decide)).2.2.1
      ("2025-13-40 99:99:99\"".toList)
      (.valueError (noMatchMsg ("2025-13-40 99:99:99".toList)))
      (by decide) (by rfl)⟩

/-- Counterexample to C2 as stated: for the malformed payload `oops` the
parse fails, yet no user-visible message carries the raw text `oops` — the
reply carries only the underlying error and the raw text goes to the log
alone.  The store and job set are untouched. -/
theorem C2_agendar_lembrete_counterexample :
    (process_gemini_response ("Ok.\n[AGENDAR_LEMBRETE: oops]".toList) wCtx wStore
        []).msgs =
      [("Ok.".toList), agendarFailMsg .indexError] ∧
    occursIn ("oops".toList) ("Ok.".toList) = false ∧
    occursIn ("oops".toList) (agendarFailMsg .indexError) = false ∧
    (process_gemini_response ("Ok.\n[AGENDAR_LEMBRETE: oops]".toList) wCtx wStore
        []).store = wStore ∧
    (process_gemini_response ("Ok.\n[AGENDAR_LEMBRETE: oops]".toList) wCtx wStore
        []).jobs = [] := by
  refine ⟨by decide, by decide, by decide, by decide, by decide⟩

/-- C10: for a well-formed AGENDAR_LEMBRETE directive the scheduler job is
registered before the note insert (the effect trace lists the registration
first); if the insert raises after registration, the job stays registered,
the store is unchanged, and the failure is reported to the user — the
combined effect is not rolled back. -/
theorem C10_register_before_insert :
    ∀ text ctx st jobs cl raw p1 dt,
      candidateDirective text = some cl →
      rejectsCandidate (some cl) = false →
      matchDirective cl = some ("AGENDAR_LEMBRETE".toList, raw) →
      (pySplit agendarSep raw)[1]? = some p1 →
      strptime (stripQuotes p1) = .ok dt →
      (ctx.insertFail = false →
        (process_gemini_response text ctx st jobs).trace =
          [.regJob (agendarJob ctx raw p1 dt),
           .insertNote ctx.user_id
             (stripQuotes ((pySplit agendarSep raw).headD [])) (some dt)]) ∧
      (ctx.insertFail = true →
        (process_gemini_response text ctx st jobs).jobs =
            jobs ++ [agendarJob ctx raw p1 dt] ∧
        (process_gemini_response text ctx st jobs).store = st ∧
        (process_gemini_response text ctx st jobs).msgs =
            [naturalReply text, agendarFailMsg .sqliteError] ∧
        (process_gemini_response text ctx st jobs).trace =
            [.regJob (agendarJob ctx raw p1 dt)]) := by
  intro text ctx st jobs cl raw p1 dt hc hrej hm h1 hst
  have hproc : process_gemini_response text ctx st jobs =
      execDirective ("AGENDAR_LEMBRETE".toList) raw ctx st jobs
        (noopResult text st jobs) := by
    simp [process_gemini_response, hc, hrej, hm]
  constructor
  · intro hif
    rw [hproc, execDirective, if_neg (by decide), if_pos rfl]
    simp only [h1, hst, hif]
    rfl
  · intro hif
    rw [hproc, execDirective, if_neg (by decide), if_pos rfl]
    simp only [h1, hst, hif]
    exact ⟨rfl, rfl, rfl, rfl⟩

/-- Witness for C10 at a concrete directive, exercising both the successful
order of effects and the injected insert failure. -/
theorem C10_register_before_insert_witness :
    ((process_gemini_response
        ("Ok!\n[AGENDAR_LEMBRETE: \"call dentist\", \"2025-11-02 10:00:00\"]".toList)
        wCtx wStore []).trace =
      [.regJob (agendarJob wCtx
          ("\"call dentist\", \"2025-11-02 10:00:00\"".toList)
          ("2025-11-02 10:00:00\"".toList) ⟨2025, 11, 2, 10, 0, 0⟩),
       .insertNote 42 ("call dentist".toList) (some ⟨2025, 11, 2, 10, 0, 0⟩)]) ∧
    ((process_gemini_response
        ("Ok!\n[AGENDAR_LEMBRETE: \"call dentist\", \"2025-11-02 10:00:00\"]".toList)
        { user_id := 42, now := wNow, insertFail := true } wStore []).jobs =
      [agendarJob { user_id := 42, now := wNow, insertFail := true }
          ("\"call dentist\", \"2025-11-02 10:00:00\"".toList)
          ("2025-11-02 10:00:00\"".toList) ⟨2025, 11, 2, 10, 0, 0⟩] ∧
     (process_gemini_response
        ("Ok!\n[AGENDAR_LEMBRETE: \"call dentist\", \"2025-11-02 10:00:00\"]".toList)
        { user_id := 42, now := wNow, insertFail := true } wStore []).store = wStore) :=
  ⟨(C10_register_before_insert
      ("Ok!\n[AGENDAR_LEMBRETE: \"call dentist\", \"2025-11-02 10:00:00\"]".toList)
      wCtx wStore []
      ("[AGENDAR_LEMBRETE: \"call dentist\", \"2025-11-02 10:00:00\"]".toList)
      ("\"call dentist\", \"2025-11-02 10:00:00\"".toList)
      ("2025-11-02 10:00:00\"".toList) ⟨2025, 11, 2, 10, 0, 0⟩
      (by decide) (by decide) (by decide) (by decide) (by rfl)).1 (by decide),
   (fun h => ⟨h.1, h.2.1⟩)
     ((C10_register_before_insert
        ("Ok!\n[AGENDAR_LEMBRETE: \"call dentist\", \"2025-11-02 10:00:00\"]".toList)
        { user_id := 42, now := wNow, insertFail := true } wStore []
        ("[AGENDAR_LEMBRETE: \"call dentist\", \"2025-11-02 10:00:00\"]".toList)
        ("\"call dentist\", \"2025-11-02 10:00:00\"".toList)
        ("2025-11-02 10:00:00\"".toList) ⟨2025, 11, 2, 10, 0, 0⟩
        (by decide) (by decide) (by decide) (by decide) (by rfl)).2 (by decide))⟩

/-- Counterexample to C6 as stated: two schedule directives for the same
owner and fire time but different contents produce jobs with the same key
`str(user_id) + lembrete_time_str` — content is not part of the key, so the
claimed "same key iff same (owner, fire_at, content)" fails. -/
theorem C6_job_key_counterexample :
    (process_gemini_response
        ("Ok\n[AGENDAR_LEMBRETE: \"pagar conta\", \"2025-11-02 10:00:00\"]".toList)
        wCtx wStore []).jobs =
      [{ chat_id := 42, fire_at := ⟨2025, 11, 2, 10, 0, 0⟩,
         data := "pagar conta".toList,
         name := "422025-11-02 10:00:00".toList }] ∧
    (process_gemini_response
        ("Ok\n[AGENDAR_LEMBRETE: \"comprar pão\", \"2025-11-02 10:00:00\"]".toList)
        wCtx wStore []).jobs =
      [{ chat_id := 42, fire_at := ⟨2025, 11, 2, 10, 0, 0⟩,
         data := "comprar pão".toList,
         name := "422025-11-02 10:00:00".toList }] ∧
    ¬("pagar conta".toList = ("comprar pão".toList : Str)) := by
  refine ⟨by decide, by decide, by decide⟩

/-! ### Injectivity of the job key in (owner, raw time string) -/

theorem natDigitsRev_lt10 : ∀ fuel n d, d ∈ natDigitsRev fuel n → d < 10 := by
  intro fuel
  induction fuel with
  | zero => intro n d h; simp [natDigitsRev] at h
  | succ f ih =>
    intro n d h
    rw [natDigitsRev] at h
    by_cases hn : n < 10
    · rw [if_pos hn] at h
      simp at h
      omega
    · rw [if_neg hn] at h
      rcases List.mem_cons.mp h with h | h
      · subst h; exact Nat.mod_lt _ (by omega)
      · exact ih _ _ h

theorem natDigitsRev_val : ∀ fuel n, n < fuel →
    valRev (natDigitsRev fuel n) = n := by
  intro fuel
  induction fuel with
  | zero => intro n h; omega
  | succ f ih =>
    intro n h
    rw [natDigitsRev]
    by_cases hn : n < 10
    · rw [if_pos hn]
      simp [valRev]
    · rw [if_neg hn]
      rw [valRev]
      have hd : n / 10 < n := Nat.div_lt_self (by omega) (by omega)
      rw [ih (n / 10) (by omega)]
      omega

theorem charVal_dChar : ∀ d, d < 10 → charVal (dChar d) = d := by
  intro d h
  interval_cases d <;> rfl

theorem dChar_isDigit : ∀ d, d < 10 → (dChar d).isDigit = true := by
  intro d h
  interval_cases d <;> decide

theorem map_charVal_dChar : ∀ l : List Nat, (∀ d ∈ l, d < 10) →
    l.map (fun d => charVal (dChar d)) = l := by
  intro l
  induction l with
  | nil => intro _; rfl
  | cons d r ih =>
    intro h
    rw [List.map_cons, charVal_dChar d (h d (List.mem_cons_self d r)),
      ih (fun x hx => h x (List.mem_cons_of_mem d hx))]

theorem natToStr_inj {m n : Nat} (h : natToStr m = natToStr n) : m = n := by
  rw [natToStr, natToStr, List.reverse_inj] at h
  have h2 := congrArg (List.map charVal) h
  rw [List.map_map, List.map_map] at h2
  have hm : (natDigitsRev (m + 1) m).map (charVal ∘ dChar) = natDigitsRev (m + 1) m :=
    map_charVal_dChar _ (fun d hd => natDigitsRev_lt10 _ _ _ hd)
  have hn : (natDigitsRev (n + 1) n).map (charVal ∘ dChar) = natDigitsRev (n + 1) n :=
    map_charVal_dChar _ (fun d hd => natDigitsRev_lt10 _ _ _ hd)
  rw [hm, hn] at h2
  have := congrArg valRev h2
  rw [natDigitsRev_val (m + 1) m (by omega), natDigitsRev_val (n + 1) n (by omega)] at this
  exact this

theorem natToStr_digits : ∀ n c, c ∈ natToStr n → c.isDigit = true := by
  intro n c h
  rw [natToStr, List.mem_reverse, List.mem_map] at h
  obtain ⟨d, hd, rfl⟩ := h
  exact dChar_isDigit d (natDigitsRev_lt10 _ _ _ hd)

theorem ndIdx_append : ∀ s t : Str, (∀ c ∈ s, c.isDigit = true) →
    ndIdx (s ++ t) = s.length + ndIdx t := by
  intro s
  induction s with
  | nil => intro t _; simp
  | cons c r ih =>
    intro t h
    rw [List.cons_append, ndIdx, if_pos (h c (List.mem_cons_self c r)),
      ih t (fun x hx => h x (List.mem_cons_of_mem c hx)), List.length_cons]
    omega

/-- A string accepted by `strptime` starts with four digits and a dash. -/
theorem strptime_shape : ∀ (t : Str) (dt : DT), strptime t = .ok dt →
    ∃ a b c d r, t = a :: b :: c :: d :: '-' :: r ∧ a.isDigit = true ∧
      b.isDigit = true ∧ c.isDigit = true ∧ d.isDigit = true := by
  intro t dt h
  rw [strptime] at h
  rcases hsm : strptimeMatches t with _ | ⟨p, rest⟩
  · rw [hsm] at h; exact absurd h (by simp)
  rw [strptimeMatches] at hsm
  rcases t with _ | ⟨a, t1⟩
  · simp [year4] at hsm
  rcases t1 with _ | ⟨b, t2⟩
  · simp [year4] at hsm
  rcases t2 with _ | ⟨c, t3⟩
  · simp [year4] at hsm
  rcases t3 with _ | ⟨d, t4⟩
  · simp [year4] at hsm
  rw [year4] at hsm
  by_cases hdig : (a.isDigit && b.isDigit && c.isDigit && d.isDigit) = true
  · rw [if_pos hdig] at hsm
    rcases t4 with _ | ⟨x, t5⟩
    · simp [lit] at hsm
    · simp only [lit] at hsm
      by_cases hx : x = '-'
      · subst hx
        simp only [Bool.and_eq_true] at hdig
        exact ⟨a, b, c, d, t5, rfl, hdig.1.1.1, hdig.1.1.2, hdig.1.2, hdig.2⟩
      · rw [if_neg hx] at hsm; simp at hsm
  · rw [if_neg hdig] at hsm; simp at hsm

/-- Cancellation of a digit prefix in front of a parsed time string. -/
theorem digit_concat_cancel :
    ∀ (s1 s2 t1 t2 : Str),
      (∀ c ∈ s1, c.isDigit = true) → (∀ c ∈ s2, c.isDigit = true) →
      (∃ a b c d r, t1 = a :: b :: c :: d :: '-' :: r ∧ a.isDigit = true ∧
        b.isDigit = true ∧ c.isDigit = true ∧ d.isDigit = true) →
      (∃ a b c d r, t2 = a :: b :: c :: d :: '-' :: r ∧ a.isDigit = true ∧
        b.isDigit = true ∧ c.isDigit = true ∧ d.isDigit = true) →
      s1 ++ t1 = s2 ++ t2 → s1 = s2 ∧ t1 = t2 := by
  intro s1 s2 t1 t2 hs1 hs2 ht1 ht2 h
  have hnd1 : ndIdx t1 = 4 := by
    obtain ⟨a, b, c, d, r, rfl, ha, hb, hc, hd⟩ := ht1
    rw [ndIdx, if_pos ha, ndIdx, if_pos hb, ndIdx, if_pos hc, ndIdx, if_pos hd,
      ndIdx, if_neg (by decide)]
  have hnd2 : ndIdx t2 = 4 := by
    obtain ⟨a, b, c, d, r, rfl, ha, hb, hc, hd⟩ := ht2
    rw [ndIdx, if_pos ha, ndIdx, if_pos hb, ndIdx, if_pos hc, ndIdx, if_pos hd,
      ndIdx, if_neg (by decide)]
  have hlen : s1.length = s2.length := by
    have := congrArg ndIdx h
    rw [ndIdx_append s1 t1 hs1, ndIdx_append s2 t2 hs2, hnd1, hnd2] at this
    omega
  exact List.append_inj h hlen

/-- C6 (amended): the scheduler key is `str(user_id) + lembrete_time_str`, so
two registered jobs receive the same key iff they agree on the owner and on
the raw fire-time string; replaying the same directive therefore reuses the
key, but the content is not part of the key and two different reminders at
the same owner and time string collide. -/
theorem C6_job_key_unique :
    ∀ (u1 u2 : Int) (t1 t2 : Str) (dt1 dt2 : DT),
      0 ≤ u1 → 0 ≤ u2 →
      strptime t1 = .ok dt1 → strptime t2 = .ok dt2 →
      (jobName u1 t1 = jobName u2 t2 ↔ (u1 = u2 ∧ t1 = t2)) := by
  intro u1 u2 t1 t2 dt1 dt2 h1 h2 hs1 hs2
  constructor
  · intro h
    rw [jobName, jobName, intToStr, intToStr, if_neg (by omega), if_neg (by omega)] at h
    have := digit_concat_cancel (natToStr u1.natAbs) (natToStr u2.natAbs) t1 t2
      (natToStr_digits u1.natAbs) (natToStr_digits u2.natAbs)
      (strptime_shape t1 dt1 hs1) (strptime_shape t2 dt2 hs2) h
    refine ⟨?_, this.2⟩
    have habs := natToStr_inj this.1
    rw [← Int.natAbs_of_nonneg h1, ← Int.natAbs_of_nonneg h2, habs]
  · rintro ⟨rfl, rfl⟩
    rfl

/-- Witness for C6 (amended) at the concrete owner 42 and the concrete valid
time string of the running example. -/
theorem C6_job_key_unique_witness :
    jobName 42 ("2025-11-02 10:00:00".toList) =
      jobName 42 ("2025-11-02 10:00:00".toList) ∧
    (0 ≤ (42 : Int)) ∧
    strptime ("2025-11-02 10:00:00".toList) = .ok ⟨2025, 11, 2, 10, 0, 0⟩ :=
  ⟨(C6_job_key_unique 42 42 ("2025-11-02 10:00:00".toList)
      ("2025-11-02 10:00:00".toList) ⟨2025, 11, 2, 10, 0, 0⟩ ⟨2025, 11, 2, 10, 0, 0⟩
      (by decide) (by decide) (by rfl) (by rfl)).mpr ⟨rfl, rfl⟩,
   by decide, by rfl⟩

/-- Counterexample to C8 as stated: with one stored reminder whose `due_at`
is in the future at load time, the job set `main`'s startup sequence derives
from the Note Store is empty and differs from the spec's recovery set —
startup never reads the `notas` table and configures only the separate
pickle snapshot. -/
theorem C8_startup_recovery_counterexample :
    startupJobs ⟨2, [⟨1, 42, "dentista".toList, some ⟨2025, 11, 2, 10, 0, 0⟩⟩]⟩ = [] ∧
    specRecoveredJobs ⟨2, [⟨1, 42, "dentista".toList, some ⟨2025, 11, 2, 10, 0, 0⟩⟩]⟩
        wNow ≠ [] ∧
    startupJobs ⟨2, [⟨1, 42, "dentista".toList, some ⟨2025, 11, 2, 10, 0, 0⟩⟩]⟩ ≠
      specRecoveredJobs ⟨2, [⟨1, 42, "dentista".toList, some ⟨2025, 11, 2, 10, 0, 0⟩⟩]⟩
        wNow := by
  refine ⟨by decide, by decide, by decide⟩

/-- C8 (amended): across a restart the program does not reconstruct the
scheduler's job set from the Note Store — `main`'s startup registers no jobs
at all from stored notes, for every store; the only restart persistence it
configures is the separate serialized snapshot file
`orion_lembretes_persistentes.pkl`. -/
theorem C8_startup_no_store_recovery :
    ∀ st : Store, startupJobs st = [] ∧
      StartupStep.buildApplication ("orion_lembretes_persistentes.pkl".toList) ∈
        mainStartup := by
  intro st
  exact ⟨rfl, by decide⟩
